/-
Verification of the task-board/dependency manager
(`Version 2.0/advanced_task_board.py` and
`Version 2.0/advanced_task_board_manager.py`) against its design
specification.

The Python code is shallowly embedded as follows:

* `TaskStatus` and `VALID_TRANSITIONS` come from `advanced_task_board.py`.
* `TaskEntry` mirrors `TaskBoardEntry`.  The `history` field (touched only
  by `handle_event`, which no verified operation uses) and the wall-clock
  `last_updated` / feedback `timestamp` fields are omitted: they are
  real-time data that no verified property mentions.
* Python dictionaries are association lists with unique keys, preserving
  insertion order (Python 3.7+ dict semantics); `heapq` is modelled by a
  list kept sorted by `(priority, id)` with lexicographic string order,
  so `heappop` is `head` and `heappush` is ordered insertion.
* Python exceptions do not roll back mutations already performed, so every
  operation is a function `Board → Except BoardError α × Board`: the
  resulting board is meaningful in the error case as well.
* The recursive transition cascade is given explicit fuel; every recursive
  call consumes one unit.  `BoardError.fuelOut` marks fuel exhaustion and
  never occurs in any verified run given enough fuel (theorems either pick
  ample fuel or hold for all fuel).
* `TaskBoardManager.update_task_status` invokes `self.propagate_status` on
  the ABANDONED branch, but no such attribute is defined anywhere in the
  repository; at run time Python raises `AttributeError`.  The embedding
  mirrors this with `BoardError.attributeError "propagate_status"`.
* Both cycle detectors are `async def` methods called WITHOUT `await`:
  `add_task` (line 57) tests `self.detect_circular_dependencies()` and
  `update_dependencies` (line 573) tests
  `self._detect_cycles_in_graph(temp_graph)`.  Calling an `async def`
  merely builds a coroutine object — none of its body runs — and every
  coroutine object is truthy, so both `if` conditions are the constant
  `true` (`unawaitedCoroutineTruthy`): `add_task` unconditionally rolls
  the graph entry back and raises `CircularDependencyError`, and
  `update_dependencies` unconditionally raises it before any mutation.
  The method bodies are still embedded (`detectCircularDependencies`,
  `detectCyclesInGraph`) since they exist in the source, but no operation
  ever runs them.
* Event payload dictionaries are condensed to the fields relevant here;
  `emit_task_event` appends to `Board.events`, modelling the configuration
  in which an event stream is attached.
-/
import Mathlib

namespace TaskBoard

/-- The seven lifecycle states of `TaskStatus` in `advanced_task_board.py`. -/
inductive TaskStatus where
  | waiting
  | inProgress
  | pendingReview
  | reworkNeeded
  | complete
  | stalled
  | abandoned
deriving DecidableEq, Repr

/-- `VALID_TRANSITIONS` from `advanced_task_board.py`; statuses absent from
the dictionary (COMPLETE, ABANDONED) get the empty set, matching the
`.get(old_status, set())` read in `update_task_status`. -/
def validTransitions : TaskStatus → List TaskStatus
  | .waiting => [.inProgress, .abandoned]
  | .inProgress => [.pendingReview, .stalled]
  | .pendingReview => [.complete, .reworkNeeded]
  | .reworkNeeded => [.inProgress, .abandoned]
  | .stalled => [.inProgress, .abandoned]
  | .complete => []
  | .abandoned => []

/-- A Python value as used for the `output` field (`Optional[Any]`):
`None`, an opaque non-dict payload, or a string-keyed dict. -/
inductive PyVal where
  | pynone
  | base (s : String)
  | dict (m : List (String × PyVal))

/-- Python truthiness for `PyVal` (`not dep_task.output`). -/
def PyVal.truthy : PyVal → Bool
  | .pynone => false
  | .base s => !(s == "")
  | .dict m => !m.isEmpty

/-- One element of `verification_feedback`: a dict condensed to the keys the
code reads (`verdict`, `passed`, `source`); the `timestamp` and free-form
detail keys are never read by any operation and are omitted. -/
structure FeedbackItem where
  verdict : Option String
  passed : Option Bool
  source : Option String

/-- `TaskBoardEntry` from `advanced_task_board.py` (minus `history` and
`last_updated`, see the header comment). -/
structure TaskEntry where
  id : String
  description : String
  dependencies : List String
  status : TaskStatus
  verificationFeedback : List FeedbackItem
  output : PyVal
  priority : Int
  maxIterations : Nat
  currentIterations : Nat
  assignedAgent : Option String

/-- The typed events emitted through `emit_task_event`, condensed to the
payload fields that the specification's claims mention. -/
inductive BoardEvent where
  | taskAdded (taskId : String)
  | taskRemoved (taskId : String)
  | statusChanged (taskId : String) (oldStatus newStatus : TaskStatus) (reason : String)
  | iterationIncremented (taskId : String) (current : Nat)
  | verificationRequested (taskId : String)
  | taskEscalated (taskId : String) (reason : String)
  | dependencyRecoveryNeeded (taskId : String) (failed : List String)
  | dependenciesUpdated (taskId : String)
  | priorityUpdated (taskId : String) (oldPriority newPriority : Int)

/-- The exceptions raised by `TaskBoardManager`, plus `fuelOut` (an
artifact of the fuelled embedding) and `typeError` (Python's error for
item-assignment on a non-dict `output`). -/
inductive BoardError where
  | keyError (id : String)
  | valueError (msg : String)
  | circularDependency (msg : String)
  | invalidTransition (oldStatus newStatus : TaskStatus)
  | stateError (msg : String)
  | typeError
  | attributeError (name : String)
  | fuelOut

/-- The mutable state of a `TaskBoardManager` instance: `tasks`,
`dependency_graph`, `priority_queue`, `feedback_threshold`, plus the
sequence of events emitted so far. -/
structure Board where
  tasks : List (String × TaskEntry)
  dependencyGraph : List (String × List String)
  priorityQueue : List (Int × String)
  feedbackThreshold : Nat
  events : List BoardEvent

/-! ### Association-list model of Python dicts -/

/-- Dict lookup (`d[k]` / `k in d`). -/
def lookupA {α : Type} : List (String × α) → String → Option α
  | [], _ => none
  | (k', v) :: t, k => if k' = k then some v else lookupA t k

/-- Dict write `d[k] = v`: updates in place if the key exists (keeping its
position, as Python dicts do), else appends. -/
def setA {α : Type} : List (String × α) → String → α → List (String × α)
  | [], k, v => [(k, v)]
  | (k', v') :: t, k, v => if k' = k then (k, v) :: t else (k', v') :: setA t k v

/-- Dict removal `d.pop(k)`. -/
def eraseA {α : Type} (l : List (String × α)) (k : String) : List (String × α) :=
  l.filter (fun p => p.1 ≠ k)

/-- The key list of a dict. -/
def keysA {α : Type} (l : List (String × α)) : List String :=
  l.map Prod.fst

/-- `set(xs)` for a list of ids: deduplicate, keeping first occurrences.
(CPython's set iteration order is unspecified; only membership and the
deduplicated extent are ever observable in the verified operations.) -/
def dedup : List String → List String
  | [] => []
  | x :: t => if x ∈ t then dedup t else x :: dedup t

/-! ### Lexicographic order on `(priority, id)` heap entries -/

/-- Code-point comparison of strings, mirroring Python's `str` ordering
(used by `heapq` when priorities tie). -/
def strLe (s t : String) : Bool :=
  go s.data t.data
where
  go : List Char → List Char → Bool
    | [], _ => true
    | _ :: _, [] => false
    | a :: as, b :: bs =>
      if a.toNat < b.toNat then true
      else if b.toNat < a.toNat then false
      else go as bs

/-- `(p, id) ≤ (q, jd)` in the tuple order `heapq` uses. -/
def qLe (x y : Int × String) : Bool :=
  if x.1 < y.1 then true
  else if y.1 < x.1 then false
  else strLe x.2 y.2

/-- `heappush`: ordered insertion into the sorted-list model of the heap. -/
def qpush : List (Int × String) → (Int × String) → List (Int × String)
  | [], x => [x]
  | y :: t, x => if qLe x y then x :: y :: t else y :: qpush t x

/-! ### The operation monad: state plus Python-style exceptions -/

/-- An operation on the board: returns a value or an error, never rolling
back mutations already performed (Python exception semantics). -/
def M (α : Type) : Type := Board → Except BoardError α × Board

instance : Monad M where
  pure a := fun b => (.ok a, b)
  bind x f := fun b =>
    match x b with
    | (.ok a, b') => f a b'
    | (.error e, b') => (.error e, b')

/-- Raise an exception, keeping the state. -/
def throwE {α : Type} (e : BoardError) : M α := fun b => (.error e, b)

/-- Read the whole state. -/
def getB : M Board := fun b => (.ok b, b)

/-- Replace the whole state. -/
def setB (b : Board) : M Unit := fun _ => (.ok (), b)

/-- Assign the heap field (`self.priority_queue = ...`). -/
def setQueue (q : List (Int × String)) : M Unit := fun b =>
  (.ok (), { b with priorityQueue := q })

/-- `self.dependency_graph[id] = deps`. -/
def setGraphEntry (id : String) (deps : List String) : M Unit := fun b =>
  (.ok (), { b with dependencyGraph := setA b.dependencyGraph id deps })

/-- `self.dependency_graph.pop(id)`. -/
def dropGraphEntry (id : String) : M Unit := fun b =>
  (.ok (), { b with dependencyGraph := eraseA b.dependencyGraph id })

/-- `self.tasks[id] = task`. -/
def insertTaskEntry (id : String) (e : TaskEntry) : M Unit := fun b =>
  (.ok (), { b with tasks := setA b.tasks id e })

/-- `self.tasks.pop(id)`. -/
def dropTaskEntry (id : String) : M Unit := fun b =>
  (.ok (), { b with tasks := eraseA b.tasks id })

/-- `other_deps.discard(task_id)` over every graph dependency set. -/
def discardFromGraphValues (id : String) : M Unit := fun b =>
  (.ok (), { b with dependencyGraph :=
    b.dependencyGraph.map (fun p => (p.1, p.2.filter (fun d => d ≠ id))) })

/-- `self.tasks[task_id]`, raising `KeyError` when absent. -/
def getTask (taskId : String) : M TaskEntry := fun b =>
  match lookupA b.tasks taskId with
  | some t => (.ok t, b)
  | none => (.error (.keyError taskId), b)

/-- Mutate the entry stored under `taskId` in place (Python object
mutation through the shared reference); no-op when absent. -/
def modifyTask (taskId : String) (f : TaskEntry → TaskEntry) : M Unit := fun b =>
  match lookupA b.tasks taskId with
  | some t => (.ok (), { b with tasks := setA b.tasks taskId (f t) })
  | none => (.ok (), b)

/-- `emit_task_event`, modelling the attached-event-stream configuration. -/
def pushEvent (ev : BoardEvent) : M Unit := fun b =>
  (.ok (), { b with events := b.events ++ [ev] })

/-- Lift a pure `Except` computation into the monad. -/
def liftE {α : Type} (x : Except BoardError α) : M α := fun b => (x, b)

theorem run_bind {α β : Type} (x : M α) (f : α → M β) (b : Board) :
    (x >>= f) b = match x b with
      | (.ok a, b') => f a b'
      | (.error e, b') => (.error e, b') := rfl

theorem run_pure {α : Type} (a : α) (b : Board) :
    (pure a : M α) b = (.ok a, b) := rfl

end TaskBoard

namespace TaskBoard

/-! ### Pure read-only helpers -/

/-- The loop body of `check_dependencies`: scans a dependency list, `False`
at the first non-COMPLETE dependency, `KeyError` at a missing one. -/
def depsComplete (b : Board) : List String → Except BoardError Bool
  | [] => .ok true
  | d :: ds =>
    match lookupA b.tasks d with
    | none => .error (.keyError d)
    | some t => if t.status = .complete then depsComplete b ds else .ok false

/-- `TaskBoardManager.check_dependencies`. -/
def checkDependencies (taskId : String) : M Bool := fun b =>
  match lookupA b.tasks taskId with
  | none => (.error (.keyError taskId), b)
  | some _ =>
    match lookupA b.dependencyGraph taskId with
    | none => (.error (.keyError taskId), b)
    | some deps => (depsComplete b deps, b)

/-- The scan inside `get_blocked_tasks`: ids whose dependency set contains
`taskId`, in graph insertion order. -/
def blockedOf (g : List (String × List String)) (taskId : String) : List String :=
  (g.filter (fun p => taskId ∈ p.2)).map Prod.fst

/-- `TaskBoardManager.get_blocked_tasks`. -/
def getBlockedTasks (taskId : String) : M (List String) := fun b =>
  match lookupA b.tasks taskId with
  | none => (.error (.keyError taskId), b)
  | some _ => (.ok (blockedOf b.dependencyGraph taskId), b)

/-- The dependency loop of the inner `dfs` of
`detect_circular_dependencies`: visits every dependency (no early exit;
Python accumulates cycles), or-ing the cycle flags and threading the
shared `visited` set. -/
def foldVisitAll (f : List String → String → Except BoardError (List String × Bool)) :
    List String → Bool → List String → Except BoardError (List String × Bool)
  | visited, found, [] => .ok (visited, found)
  | visited, found, d :: ds =>
    match f visited d with
    | .error e => .error e
    | .ok (v', f') => foldVisitAll f v' (found || f') ds

/-- The inner `dfs` of `detect_circular_dependencies`: a node already on
the current path signals a cycle; one already visited is skipped; an
unknown node raises `KeyError` (the source indexes
`self.dependency_graph[task_id]` directly). -/
def visitCyc (g : List (String × List String)) :
    Nat → List String → List String → String → Except BoardError (List String × Bool)
  | 0, _, _, _ => .error .fuelOut
  | n + 1, visited, path, node =>
    if node ∈ path then .ok (visited, true)
    else if node ∈ visited then .ok (visited, false)
    else
      match lookupA g node with
      | none => .error (.keyError node)
      | some deps =>
        foldVisitAll (fun v d => visitCyc g n v (node :: path) d) (node :: visited) false deps

/-- The outer loop of `detect_circular_dependencies`: runs `dfs` from every
graph key, sharing `visited`, collecting whether any cycle was found. -/
def detectFoldAll (g : List (String × List String)) (fuel : Nat) :
    List String → Bool → List String → Except BoardError Bool
  | _, found, [] => .ok found
  | visited, found, k :: ks =>
    match visitCyc g fuel visited [] k with
    | .error e => .error e
    | .ok (v', f') => detectFoldAll g fuel v' (found || f') ks

/-- The body of `TaskBoardManager.detect_circular_dependencies`, reduced
to the truthiness of the returned cycle list.  Its only call site
(`add_task`, line 57) lacks `await`, so this body never actually runs;
see `unawaitedCoroutineTruthy`. -/
def detectCircularDependencies (g : List (String × List String)) (fuel : Nat) :
    Except BoardError Bool :=
  detectFoldAll g fuel [] false (keysA g)

/-- The dependency loop of `visit` inside `_detect_cycles_in_graph`:
returns `True` at the first cyclic dependency (early exit). -/
def foldVisitEarly (f : List String → String → Except BoardError (List String × Bool)) :
    List String → List String → Except BoardError (List String × Bool)
  | visited, [] => .ok (visited, false)
  | visited, d :: ds =>
    match f visited d with
    | .error e => .error e
    | .ok (v', true) => .ok (v', true)
    | .ok (v', false) => foldVisitEarly f v' ds

/-- `visit` inside `_detect_cycles_in_graph`; unknown nodes contribute no
dependencies (the source reads `graph.get(node, set())`). -/
def visit2 (g : List (String × List String)) :
    Nat → List String → List String → String → Except BoardError (List String × Bool)
  | 0, _, _, _ => .error .fuelOut
  | n + 1, visited, path, node =>
    if node ∈ path then .ok (visited, true)
    else if node ∈ visited then .ok (visited, false)
    else
      foldVisitEarly (fun v d => visit2 g n v (node :: path) d) (node :: visited)
        ((lookupA g node).getD [])

/-- The body of `TaskBoardManager._detect_cycles_in_graph`: `any(visit(node)
for node in graph)`, short-circuiting, with `visited` shared across start
nodes.  Its only call site (`update_dependencies`, line 573) lacks
`await`, so this body never actually runs; see
`unawaitedCoroutineTruthy`. -/
def detectCyclesInGraph (g : List (String × List String)) (fuel : Nat) :
    Except BoardError Bool :=
  go [] (keysA g)
where
  go : List String → List String → Except BoardError Bool
    | _, [] => .ok false
    | visited, k :: ks =>
      match visit2 g fuel visited [] k with
      | .error e => .error e
      | .ok (_, true) => .ok true
      | .ok (v', false) => go v' ks

/-- The scan of `handle_partial_failure`: dependencies whose task is
ABANDONED or STALLED, `KeyError` at a dependency missing from the store. -/
def failedDepsOf (b : Board) : List String → Except BoardError (List String)
  | [] => .ok []
  | d :: ds =>
    match lookupA b.tasks d with
    | none => .error (.keyError d)
    | some t =>
      match failedDepsOf b ds with
      | .error e => .error e
      | .ok rest =>
        .ok (if t.status = .abandoned ∨ t.status = .stalled then d :: rest else rest)

/-- Python item assignment `v[k] = x`: only dicts accept it. -/
def pySetItem (v : PyVal) (k : String) (x : PyVal) : Except BoardError PyVal :=
  match v with
  | .dict m => .ok (.dict (setA m k x))
  | _ => .error .typeError

/-! ### The transition cascade

`update_task_status`, its COMPLETE-propagation loop, `handle_partial_failure`
and `escalate_task` call one another recursively; each recursive call
consumes one unit of fuel. -/

mutual

/-- `TaskBoardManager.update_task_status`: existence check, legality check
against `VALID_TRANSITIONS` (raising `InvalidTransitionError` before any
mutation), the status write, then the status-specific side effects, then
the STATUS_CHANGED event.  The ABANDONED branch calls
`self.propagate_status`, which is not defined anywhere in the repository,
so it raises `AttributeError` after the status write. -/
def updateTaskStatus : Nat → String → TaskStatus → String → M Unit
  | 0, _, _, _ => throwE .fuelOut
  | n + 1, taskId, newStatus, reason => do
    let task ← getTask taskId
    if newStatus ∈ validTransitions task.status then do
      modifyTask taskId (fun t => { t with status := newStatus })
      if newStatus = .complete then do
        let blocked ← getBlockedTasks taskId
        propagateComplete n taskId blocked
      else if newStatus = .abandoned then
        throwE (.attributeError "propagate_status")
      else if newStatus = .stalled then
        handlePartialFailure n taskId
      else if newStatus = .reworkNeeded then do
        modifyTask taskId (fun t => { t with currentIterations := t.currentIterations + 1 })
        let t ← getTask taskId
        if t.currentIterations ≥ t.maxIterations then
          escalateTask n taskId "Maximum iterations reached during rework"
        else pure ()
      else pure ()
      pushEvent (.statusChanged taskId task.status newStatus reason)
    else
      throwE (.invalidTransition task.status newStatus)

/-- The dependent loop of the COMPLETE branch of `update_task_status`:
merge the completed task's output into each dependent's output map (keyed
by the completed task's id), then drive the dependent to IN_PROGRESS when
all its dependencies are complete. -/
def propagateComplete : Nat → String → List String → M Unit
  | 0, _, _ => throwE .fuelOut
  | _ + 1, _, [] => pure ()
  | n + 1, taskId, depId :: rest => do
    let depTask ← getTask depId
    if !depTask.output.truthy then
      modifyTask depId (fun t => { t with output := .dict [] })
    else pure ()
    let src ← getTask taskId
    let dep2 ← getTask depId
    let newOut ← liftE (pySetItem dep2.output taskId src.output)
    modifyTask depId (fun t => { t with output := newOut })
    let ready ← checkDependencies depId
    if ready then
      updateTaskStatus n depId .inProgress "All dependencies complete"
    else pure ()
    propagateComplete n taskId rest

/-- `TaskBoardManager.handle_partial_failure`: scan the entry's dependency
list for ABANDONED/STALLED tasks; when any exist, emit
DEPENDENCY_RECOVERY_NEEDED and transition the task to STALLED. -/
def handlePartialFailure : Nat → String → M Unit
  | 0, _ => throwE .fuelOut
  | n + 1, taskId => do
    let task ← getTask taskId
    let b ← getB
    let failed ← liftE (failedDepsOf b task.dependencies)
    if failed.isEmpty then pure ()
    else do
      pushEvent (.dependencyRecoveryNeeded taskId failed)
      updateTaskStatus n taskId .stalled "Dependencies failed"

/-- `TaskBoardManager.escalate_task`: read the task (`KeyError` when
absent), emit TASK_ESCALATED, then transition the task to STALLED. -/
def escalateTask : Nat → String → String → M Unit
  | 0, _, _ => throwE .fuelOut
  | n + 1, taskId, reason => do
    let _task ← getTask taskId
    pushEvent (.taskEscalated taskId reason)
    updateTaskStatus n taskId .stalled ("Escalated: " ++ reason)

end

end TaskBoard

namespace TaskBoard

/-! ### Top-level operations -/

/-- The dependency-existence validation shared by `add_task` and
`update_dependencies`: `ValueError` at the first id missing from the
store. -/
def checkDepsExist (b : Board) : List String → Except BoardError Unit
  | [] => .ok ()
  | d :: ds =>
    if (lookupA b.tasks d).isSome then checkDepsExist b ds
    else .error (.valueError ("Dependency does not exist: " ++ d))

/-- The value of the `if` conditions at `add_task` line 57 and
`update_dependencies` line 573.  Both call an `async def` cycle detector
WITHOUT `await`: calling an `async def` only builds a coroutine object —
none of its body runs — and every coroutine object is truthy, so the
condition is the constant `true`. -/
def unawaitedCoroutineTruthy : Bool := true

/-- `TaskBoardManager.add_task`: duplicate-id check, dependency-existence
check, write the dependency-graph entry, then
`if self.detect_circular_dependencies():` — the async detector is called
without `await`, so the condition is an always-truthy coroutine object
and the cycle branch fires unconditionally: the graph entry is rolled
back and `CircularDependencyError` raised.  The store/heap insertion,
status initialization and TASK_ADDED emission below the check are
unreachable; they are kept here, guarded by the constant condition, to
mirror the source text. -/
def addTask (fuel : Nat) (task : TaskEntry) : M Unit := do
  let b ← getB
  if (lookupA b.tasks task.id).isSome then
    throwE (.valueError ("Task already exists: " ++ task.id))
  else do
    liftE (checkDepsExist b task.dependencies)
    setGraphEntry task.id (dedup task.dependencies)
    if unawaitedCoroutineTruthy then do
      dropGraphEntry task.id
      throwE (.circularDependency "Adding task creates circular dependency")
    else do
      insertTaskEntry task.id task
      let b2 ← getB
      setQueue (qpush b2.priorityQueue (task.priority, task.id))
      let initialStatus := if task.dependencies.isEmpty then TaskStatus.inProgress
        else TaskStatus.waiting
      updateTaskStatus fuel task.id initialStatus "Task initialized"
      pushEvent (.taskAdded task.id)

/-- The `for blocked_id in blocked_tasks` loop of `remove_task`. -/
def hpfLoop (fuel : Nat) : List String → M Unit
  | [] => pure ()
  | x :: xs => do
    handlePartialFailure fuel x
    hpfLoop fuel xs

/-- `TaskBoardManager.remove_task`: existence check, run
`handle_partial_failure` on every dependent, then drop the entry from the
store, the graph, and the heap, discard the id from every remaining graph
dependency set, and emit TASK_REMOVED. -/
def removeTask (fuel : Nat) (taskId : String) : M Unit := do
  let b ← getB
  if (lookupA b.tasks taskId).isNone then
    throwE (.keyError taskId)
  else do
    let blocked ← getBlockedTasks taskId
    hpfLoop fuel blocked
    dropTaskEntry taskId
    dropGraphEntry taskId
    let b1 ← getB
    setQueue (b1.priorityQueue.filter (fun e => e.2 ≠ taskId))
    discardFromGraphValues taskId
    pushEvent (.taskRemoved taskId)

/-- `TaskBoardManager.update_dependencies`: existence checks for the task
and every new dependency, build the trial graph, then
`if self._detect_cycles_in_graph(temp_graph):` — the async detector is
called without `await`, so the condition is an always-truthy coroutine
object and `CircularDependencyError` is raised unconditionally, before
any mutation.  The dependency replacement, the IN_PROGRESS → WAITING
pushback and the DEPENDENCIES_UPDATED emission below the check are
unreachable; they are kept here, guarded by the constant condition, to
mirror the source text. -/
def updateDependencies (fuel : Nat) (taskId : String) (newDeps : List String) : M Unit := do
  let b ← getB
  if (lookupA b.tasks taskId).isNone then
    throwE (.keyError taskId)
  else do
    let ndset := dedup newDeps
    liftE (checkDepsExist b ndset)
    let _temp := setA b.dependencyGraph taskId ndset
    if unawaitedCoroutineTruthy then
      throwE (.circularDependency "New dependencies would create cycle")
    else do
      modifyTask taskId (fun t => { t with dependencies := newDeps })
      setGraphEntry taskId ndset
      let t ← getTask taskId
      if t.status = .inProgress then do
        let allOk ← checkDependencies taskId
        if !allOk then
          updateTaskStatus fuel taskId .waiting "New dependencies added"
        else pure ()
      else pure ()
      pushEvent (.dependenciesUpdated taskId)

/-- Count of feedback items whose `verdict` key equals `v`
(`handle_feedback`'s approve/reject tallies). -/
def countVerdict (l : List FeedbackItem) (v : String) : Nat :=
  (l.filter (fun f => f.verdict == some v)).length

/-- `TaskBoardManager.handle_feedback`: append the item (tagged with its
source), tally approve/reject verdicts, escalate when both kinds are
present and the count has reached `feedback_threshold`, else resolve a
clear verdict (all-approve → COMPLETE, all-reject → REWORK_NEEDED), else
leave the task as is. -/
def handleFeedback (fuel : Nat) (taskId : String) (fb : FeedbackItem) (source : String) :
    M Unit := do
  let b ← getB
  if (lookupA b.tasks taskId).isNone then
    throwE (.keyError taskId)
  else do
    modifyTask taskId (fun t =>
      { t with verificationFeedback :=
          t.verificationFeedback ++ [{ fb with source := some source }] })
    let t ← getTask taskId
    let approveCount := countVerdict t.verificationFeedback "approve"
    let rejectCount := countVerdict t.verificationFeedback "reject"
    if approveCount > 0 ∧ rejectCount > 0 ∧
        t.verificationFeedback.length ≥ b.feedbackThreshold then
      escalateTask fuel taskId "Conflicting feedback"
    else if approveCount > 0 ∧ rejectCount = 0 then
      updateTaskStatus fuel taskId .complete "Task approved"
    else if rejectCount > 0 ∧ approveCount = 0 then
      updateTaskStatus fuel taskId .reworkNeeded "Task needs rework"
    else pure ()

/-- `TaskBoardManager.handle_iteration_limit_reached`: a task at its
iteration limit is driven to STALLED from REWORK_NEEDED or
PENDING_REVIEW; other statuses are left alone. -/
def handleIterationLimitReached (fuel : Nat) (taskId : String) : M Unit := do
  let task ← getTask taskId
  if task.status = .reworkNeeded then
    updateTaskStatus fuel taskId .stalled "Maximum iterations reached during rework"
  else if task.status = .pendingReview then
    updateTaskStatus fuel taskId .stalled "Maximum iterations reached during review"
  else pure ()

/-- `TaskBoardManager.increment_iteration`: bump `current_iterations`,
invoke the limit handler when the bound is reached, then emit
ITERATION_INCREMENTED. -/
def incrementIteration (fuel : Nat) (taskId : String) : M Unit := do
  let b ← getB
  if (lookupA b.tasks taskId).isNone then
    throwE (.keyError taskId)
  else do
    modifyTask taskId (fun t => { t with currentIterations := t.currentIterations + 1 })
    let t ← getTask taskId
    if t.currentIterations ≥ t.maxIterations then
      handleIterationLimitReached fuel taskId
    else pure ()
    pushEvent (.iterationIncremented taskId t.currentIterations)

/-- `TaskBoardManager.handle_verification_result` (the free-form feedback
dict payload only feeds the appended item and the reason text, so it is
reduced to the `passed` flag): require PENDING_REVIEW, append the result,
then either complete the task or increment the iteration counter and,
when the cap is not yet reached, send it to REWORK_NEEDED. -/
def handleVerificationResult (fuel : Nat) (taskId : String) (passed : Bool) : M Unit := do
  let b ← getB
  if (lookupA b.tasks taskId).isNone then
    throwE (.keyError taskId)
  else do
    let task ← getTask taskId
    if task.status ≠ .pendingReview then
      throwE (.stateError ("Task not in pending review: " ++ taskId))
    else do
      modifyTask taskId (fun t =>
        { t with verificationFeedback := t.verificationFeedback ++
            [{ verdict := none, passed := some passed, source := none }] })
      if passed then
        updateTaskStatus fuel taskId .complete "Verification passed"
      else do
        incrementIteration fuel taskId
        let t ← getTask taskId
        if t.currentIterations < t.maxIterations then
          updateTaskStatus fuel taskId .reworkNeeded "Verification failed"
        else pure ()

/-- `TaskBoardManager.get_next_priority_task`: pop the least
`(priority, id)` heap record; drop it if the task no longer exists; a
WAITING task with all dependencies COMPLETE is transitioned to
IN_PROGRESS and returned; an IN_PROGRESS task is returned; anything else
is pushed back and the loop continues. -/
def getNextPriorityTask : Nat → M (Option String)
  | 0 => throwE .fuelOut
  | n + 1 => do
    let b ← getB
    match b.priorityQueue with
    | [] => pure none
    | (_, taskId) :: rest => do
      setQueue rest
      match lookupA b.tasks taskId with
      | none => getNextPriorityTask n
      | some task =>
        if task.status = .waiting then do
          let ready ← checkDependencies taskId
          if ready then do
            updateTaskStatus n taskId .inProgress "Dependencies satisfied"
            pure (some taskId)
          else do
            let b1 ← getB
            setQueue (qpush b1.priorityQueue (task.priority, taskId))
            getNextPriorityTask n
        else if task.status = .inProgress then
          pure (some taskId)
        else do
          let b1 ← getB
          setQueue (qpush b1.priorityQueue (task.priority, taskId))
          getNextPriorityTask n

/-- `heapify`: the sorted-list model rebuilds by repeated pushes. -/
def qheapify (l : List (Int × String)) : List (Int × String) :=
  l.foldl qpush []

/-- `TaskBoardManager.update_priority`: bounds-check the new priority,
store it, rebuild the heap from all entries, emit PRIORITY_UPDATED. -/
def updatePriority (taskId : String) (newPriority : Int) : M Unit := do
  let b ← getB
  if (lookupA b.tasks taskId).isNone then
    throwE (.keyError taskId)
  else if ¬(1 ≤ newPriority ∧ newPriority ≤ 5) then
    throwE (.valueError "Priority must be between 1 and 5")
  else do
    let t ← getTask taskId
    modifyTask taskId (fun u => { u with priority := newPriority })
    let b1 ← getB
    setQueue (qheapify (b1.tasks.map (fun p => (p.2.priority, p.2.id))))
    pushEvent (.priorityUpdated taskId t.priority newPriority)

end TaskBoard

namespace TaskBoard

/-! ### Observation helpers and invariants -/

/-- Dict read on a `PyVal` output map. -/
def pyGet : PyVal → String → Option PyVal
  | .dict m, k => lookupA m k
  | _, _ => none

/-- The key list of the task store. -/
def tasksKeys (b : Board) : List String := keysA b.tasks

/-- The key list of the dependency graph. -/
def graphKeys (b : Board) : List String := keysA b.dependencyGraph

/-- Board consistency: the store and the graph index exactly the same ids
(each with unique keys, as Python dicts guarantee), and every id in any
graph dependency set is a stored task. -/
def Consistent (b : Board) : Prop :=
  (∀ k ∈ tasksKeys b, k ∈ graphKeys b)
    ∧ (∀ k ∈ graphKeys b, k ∈ tasksKeys b)
    ∧ (∀ p ∈ b.dependencyGraph, ∀ d ∈ p.2, d ∈ tasksKeys b)
    ∧ (tasksKeys b).Nodup ∧ (graphKeys b).Nodup

/-- An operation that never changes the store's key list or the graph at
all, on success or failure. -/
def KeepsStore {α : Type} (m : M α) : Prop :=
  ∀ b, tasksKeys ((m b).2) = tasksKeys b ∧ ((m b).2).dependencyGraph = b.dependencyGraph

/-- An operation that preserves `Consistent`, on success or failure. -/
def KeepsConsistent {α : Type} (m : M α) : Prop :=
  ∀ b, Consistent b → Consistent ((m b).2)

/-! ### Concrete fixtures for the verified scenarios -/

/-- An entry with every field supplied. -/
def entryWith (id : String) (deps : List String) (st : TaskStatus)
    (maxIt curIt : Nat) (prio : Int) (fb : List FeedbackItem) (out : PyVal) : TaskEntry :=
  { id := id, description := "task", dependencies := deps, status := st,
    verificationFeedback := fb, output := out, priority := prio,
    maxIterations := maxIt, currentIterations := curIt, assignedAgent := none }

/-- An entry with the constructor defaults of `TaskBoardEntry`. -/
def entryBasic (id : String) (deps : List String) (st : TaskStatus) : TaskEntry :=
  entryWith id deps st 10 0 5 [] .pynone

/-- A board holding the given entries (keyed by their ids), graph, and
heap, with the default feedback threshold of 3 and no emitted events. -/
def boardOf (ts : List TaskEntry) (g : List (String × List String))
    (q : List (Int × String)) : Board :=
  { tasks := ts.map (fun t => (t.id, t)), dependencyGraph := g,
    priorityQueue := q, feedbackThreshold := 3, events := [] }

/-- A dependency chain A ← B ← C, all WAITING. -/
def chainBoard : Board :=
  boardOf [entryBasic "A" [] .waiting, entryBasic "B" ["A"] .waiting,
    entryBasic "C" ["B"] .waiting]
    [("A", []), ("B", ["A"]), ("C", ["B"])] []

/-- A task under review with `max_iterations = 2` and no iterations used. -/
def reviewCapBoard : Board :=
  boardOf [entryWith "T" [] .pendingReview 2 0 5 [] .pynone] [("T", [])] []

/-- A task under review with empty feedback (threshold 3). -/
def feedbackBoard : Board :=
  boardOf [entryBasic "T" [] .pendingReview] [("T", [])] []

/-- An `approve` verdict item. -/
def fbApprove : FeedbackItem := { verdict := some "approve", passed := none, source := none }

/-- A `reject` verdict item. -/
def fbReject : FeedbackItem := { verdict := some "reject", passed := none, source := none }

/-- An IN_PROGRESS task `t` with no dependencies, and a WAITING task `d`. -/
def pushbackBoard : Board :=
  boardOf [entryBasic "t" [] .inProgress, entryBasic "d" [] .waiting]
    [("t", []), ("d", [])] []

/-- A single-task board (task `a`, IN_PROGRESS, no dependencies). -/
def addBaseBoard : Board :=
  boardOf [entryBasic "a" [] .inProgress] [("a", [])] []

/-- A fresh entry `b` depending on the existing task `a`. -/
def freshDepEntry : TaskEntry := entryBasic "b" ["a"] .waiting

/-- Task `a` (priority 1) WAITING on the IN_PROGRESS task `b`
(priority 2); the heap holds both, `a` first. -/
def loopBoard : Board :=
  boardOf [entryWith "a" ["b"] .waiting 10 0 1 [] .pynone,
    entryWith "b" [] .inProgress 10 0 2 [] .pynone]
    [("a", ["b"]), ("b", [])] [(1, "a"), (2, "b")]

/-- A terminal COMPLETE task. -/
def completeEntry : TaskEntry := entryBasic "x" [] .complete

/-- A board holding only `completeEntry`. -/
def completeBoard : Board := boardOf [completeEntry] [("x", [])] []

/-- A WAITING task used to exhibit partial mutation in `handle_feedback`. -/
def waitingBoard : Board :=
  boardOf [entryBasic "t" [] .waiting] [("t", [])] []

/-- The empty board. -/
def emptyBoard : Board := boardOf [] [] []

/-- A single-task board used to exhibit the unconditional
`CircularDependencyError` of `update_dependencies`. -/
def selfLoopBoard : Board :=
  boardOf [entryBasic "a" [] .waiting] [("a", [])] []

/-- A two-task board where B (WAITING) depends on A (IN_PROGRESS): removing
A leaves B's entry-level dependency list pointing at a missing id. -/
def staleBoard : Board :=
  boardOf [entryBasic "A" [] .inProgress, entryBasic "B" ["A"] .waiting]
    [("A", []), ("B", ["A"])] []

/-- Fixture entries instantiating the completion-propagation theorem. -/
def propagateEntryA : TaskEntry := entryWith "A" [] .pendingReview 10 0 5 [] (.base "out")

/-- The WAITING dependent used with `propagateEntryA`. -/
def propagateEntryB : TaskEntry := entryBasic "B" ["A"] .waiting

/-- A board holding one task under the given id. -/
def oneTaskBoard (id : String) (e : TaskEntry) : Board :=
  { tasks := [(id, e)], dependencyGraph := [(id, [])],
    priorityQueue := [], feedbackThreshold := 3, events := [] }

/-- A board holding a producer `idA` and a dependent `idB` whose only
dependency is `idA`. -/
def twoTaskBoard (idA idB : String) (eA eB : TaskEntry) : Board :=
  { tasks := [(idA, eA), (idB, eB)], dependencyGraph := [(idA, []), (idB, [idA])],
    priorityQueue := [], feedbackThreshold := 3, events := [] }

/-- First feedback round on `feedbackBoard`: an approval. -/
def conflictStepOne : Except BoardError Unit × Board :=
  handleFeedback 9 "T" fbApprove "alpha" feedbackBoard

/-- Second feedback round: another approval. -/
def conflictStepTwo : Except BoardError Unit × Board :=
  handleFeedback 9 "T" fbApprove "beta" conflictStepOne.2

/-- Third feedback round: a rejection, reaching the conflict threshold. -/
def conflictStepThree : Except BoardError Unit × Board :=
  handleFeedback 9 "T" fbReject "gamma" conflictStepTwo.2

/-- Removing A from `staleBoard`. -/
def staleRun : Except BoardError Unit × Board := removeTask 9 "A" staleBoard

/-- `handle_feedback` on a WAITING task: the append lands, the transition
raises. -/
def mutationRun : Except BoardError Unit × Board :=
  handleFeedback 9 "t" fbApprove "src" waitingBoard

end TaskBoard

namespace TaskBoard

/-! ### Claim theorems -/

/-- C2: the abandonment cascade never runs.  On the chain A ← B ← C (all
WAITING), `update_task_status(A, ABANDONED)` writes A's status and then
calls `self.propagate_status`, which is defined nowhere in the repository,
so Python raises `AttributeError`: A is left ABANDONED while B and C stay
WAITING, contradicting the claimed transitive cascade. -/
theorem abandonCascadeRaisesAttributeError :
    (updateTaskStatus 9 "A" .abandoned "abandon A" chainBoard).1
        = .error (.attributeError "propagate_status")
      ∧ ((updateTaskStatus 9 "A" .abandoned "abandon A" chainBoard).2.tasks.map
          (fun p => (p.1, p.2.status)))
        = [("A", .abandoned), ("B", .waiting), ("C", .waiting)] :=
  ⟨rfl, rfl⟩

/-- C3: the iteration cap never stalls the task.  With
`max_iterations = 2` and `current_iterations = 0` in PENDING_REVIEW, the
first failed verification already raises: `handle_verification_result`
increments the counter to 1, sends the task to REWORK_NEEDED whose branch
increments again to 2 and escalates, and `escalate_task`'s
REWORK_NEEDED → STALLED transition is illegal, so `InvalidTransitionError`
propagates and the task is left REWORK_NEEDED (never STALLED), with the
TASK_ESCALATED event already emitted. -/
theorem iterationCapRaisesOnFirstFailure :
    (handleVerificationResult 9 "T" false reviewCapBoard).1
        = .error (.invalidTransition .reworkNeeded .stalled)
      ∧ ((handleVerificationResult 9 "T" false reviewCapBoard).2.tasks.map
          (fun p => (p.1, p.2.status, p.2.currentIterations)))
        = [("T", .reworkNeeded, 2)]
      ∧ (handleVerificationResult 9 "T" false reviewCapBoard).2.events
        = [.iterationIncremented "T" 1,
           .taskEscalated "T" "Maximum iterations reached during rework"] :=
  ⟨rfl, rfl, rfl⟩

/-- C7: `update_dependencies` can never succeed.  The trial-graph cycle
check at line 573 calls the async `_detect_cycles_in_graph` without
`await`; the returned coroutine object is truthy, so once the task and
every new dependency exist the call unconditionally raises
`CircularDependencyError`.  For the acyclic replacement of `t`'s
dependencies by the existing `d`, the call fails with the board
completely unchanged: the dependency set is not replaced, `t` stays
IN_PROGRESS (never pushed to WAITING), and no DEPENDENCIES_UPDATED event
is emitted, contradicting the claimed success. -/
theorem updateDependenciesAlwaysRaisesCycle :
    updateDependencies 9 "t" ["d"] pushbackBoard
        = (.error (.circularDependency "New dependencies would create cycle"),
           pushbackBoard)
      ∧ ((updateDependencies 9 "t" ["d"] pushbackBoard).2.tasks.map
          (fun p => (p.1, p.2.status, p.2.dependencies)))
        = [("t", .inProgress, []), ("d", .waiting, [])]
      ∧ (updateDependencies 9 "t" ["d"] pushbackBoard).2.events = [] :=
  ⟨rfl, rfl, rfl⟩

/-- C8: `add_task` can never add a task.  The cycle check at line 57
calls the async `detect_circular_dependencies` without `await`; the
returned coroutine object is truthy, so after the duplicate-id and
dependency-existence checks the call unconditionally rolls the freshly
written graph entry back and raises `CircularDependencyError`: nothing is
inserted into the store, graph or heap, no TASK_ADDED event is emitted,
and the board is left unchanged — both for the entry `b` depending on the
existing task `a` and for the dependency-free entry `c` — contradicting
the claimed success with status WAITING or IN_PROGRESS. -/
theorem addTaskAlwaysRaisesCycle :
    addTask 9 freshDepEntry addBaseBoard
        = (.error (.circularDependency "Adding task creates circular dependency"),
           addBaseBoard)
      ∧ addTask 9 (entryBasic "c" [] .waiting) addBaseBoard
        = (.error (.circularDependency "Adding task creates circular dependency"),
           addBaseBoard) :=
  ⟨rfl, rfl⟩

/-- C9: the scheduler loops forever instead of yielding the ready task.
On `loopBoard` the heap minimum is the non-ready `(1, a)` (WAITING on the
incomplete `b`); `get_next_priority_task` pops it, re-pushes the identical
record, and repeats, so the loop never terminates (every fuel bound is
exhausted with the state unchanged) even though the ready IN_PROGRESS task
`b` sits in the queue. -/
theorem getNextPriorityTaskLoopsForever (n : Nat) :
    getNextPriorityTask n loopBoard = (.error .fuelOut, loopBoard) := by
  induction n with
  | zero => rfl
  | succ n ih =>
    have hstep : getNextPriorityTask (n + 1) loopBoard = getNextPriorityTask n loopBoard := rfl
    rw [hstep, ih]

end TaskBoard

namespace TaskBoard

/-- C1: transition legality is enforced before any mutation.  For every
stored task and requested status not among the legal successors of its
current status — which covers every request out of the terminal states
COMPLETE and ABANDONED (their successor sets are empty) and every request
equal to the current status (no status is its own successor) —
`update_task_status` fails with `InvalidTransitionError` and the whole
board, in particular the task's entry and stored status, is unchanged. -/
theorem invalidTransitionRejectedUnchanged (fuel : Nat) (b : Board) (taskId : String)
    (t : TaskEntry) (newStatus : TaskStatus) (reason : String)
    (hlook : lookupA b.tasks taskId = some t)
    (hinv : newStatus ∉ validTransitions t.status) :
    updateTaskStatus (fuel + 1) taskId newStatus reason b
        = (.error (.invalidTransition t.status newStatus), b)
      ∧ validTransitions .complete = [] ∧ validTransitions .abandoned = []
      ∧ (∀ s : TaskStatus, s ∉ validTransitions s) := by
  refine ⟨?_, rfl, rfl, fun s => by cases s <;> decide⟩
  have h1 : getTask taskId b = (.ok t, b) := by simp [getTask, hlook]
  simp only [updateTaskStatus, run_bind, h1]
  rw [if_neg hinv]
  rfl

/-- Witness for C1: the COMPLETE task `x` asked to go IN_PROGRESS. -/
theorem invalidTransitionRejectedUnchangedWitness :
    lookupA completeBoard.tasks "x" = some completeEntry
      ∧ TaskStatus.inProgress ∉ validTransitions completeEntry.status
      ∧ updateTaskStatus 1 "x" .inProgress "go" completeBoard
          = (.error (.invalidTransition completeEntry.status .inProgress), completeBoard) := by
  refine ⟨rfl, by decide, ?_⟩
  exact (invalidTransitionRejectedUnchanged 0 completeBoard "x" completeEntry .inProgress "go"
    rfl (by decide)).1

/-- C4 counterexample: with threshold 3, feeding the PENDING_REVIEW task
two approvals and then a rejection does not leave it escalated and
STALLED: the very first approval completes it, the second round raises
COMPLETE → COMPLETE, and the third round emits TASK_ESCALATED but its
COMPLETE → STALLED transition raises, so the task ends COMPLETE. -/
theorem feedbackConflictEndsComplete :
    conflictStepOne.1 = .ok ()
      ∧ conflictStepTwo.1 = .error (.invalidTransition .complete .complete)
      ∧ conflictStepThree.1 = .error (.invalidTransition .complete .stalled)
      ∧ (conflictStepThree.2.tasks.map
          (fun p => (p.1, p.2.status, p.2.verificationFeedback.length)))
        = [("T", .complete, 3)]
      ∧ conflictStepThree.2.events
        = [.statusChanged "T" .pendingReview .complete "Task approved",
           .taskEscalated "T" "Conflicting feedback"] :=
  ⟨rfl, rfl, rfl, rfl, rfl⟩

/-- C6 counterexample: `handle_feedback` is not atomic.  On the WAITING
task `t`, an approval appends the feedback item and only then attempts
WAITING → COMPLETE, which raises: the call fails yet the task's feedback
sequence has grown from 0 to 1 items. -/
theorem handleFeedbackPartialMutation :
    mutationRun.1 = .error (.invalidTransition .waiting .complete)
      ∧ ((lookupA waitingBoard.tasks "t").map
          (fun t => t.verificationFeedback.length)) = some 0
      ∧ ((lookupA mutationRun.2.tasks "t").map
          (fun t => t.verificationFeedback.length)) = some 1 :=
  ⟨rfl, rfl, rfl⟩

/-- C10 counterexample: after `remove_task("A")` on `staleBoard`, the
removed id is discarded from the graph's dependency sets but not from B's
entry-level `dependencies` list, which still names the no-longer-stored
id A. -/
theorem removeTaskLeavesStaleEntryDependency :
    staleRun.1 = .ok ()
      ∧ lookupA staleRun.2.tasks "A" = none
      ∧ ((lookupA staleRun.2.tasks "B").map (fun t => t.dependencies)) = some ["A"]
      ∧ staleRun.2.dependencyGraph = [("B", [])] :=
  ⟨rfl, rfl, rfl, rfl⟩

end TaskBoard

namespace TaskBoard

/-! ### Association-list lemmas -/

theorem lookupA_setA_self {α : Type} (l : List (String × α)) (k : String) (v : α) :
    lookupA (setA l k v) k = some v := by
  induction l with
  | nil => simp [setA, lookupA]
  | cons p t ih =>
    by_cases h : p.1 = k
    · simp [setA, h, lookupA]
    · simp [setA, h, lookupA, ih]

/-- C5: completion propagation.  For any distinct ids and entries with A in
PENDING_REVIEW and B WAITING with dependency set exactly (A), where B's
output is `None` or a dict (anything a dependent's output map can be),
transitioning A to COMPLETE succeeds, leaves B IN_PROGRESS, and stores A's
output in B's output map under A's id. -/
theorem completionPropagation (fuel : Nat) (idA idB : String) (eA eB : TaskEntry)
    (hne : idA ≠ idB)
    (hA : eA.status = .pendingReview)
    (hB : eB.status = .waiting)
    (hout : eB.output = .pynone ∨ ∃ m, eB.output = .dict m) :
    (updateTaskStatus (fuel + 3) idA .complete "done" (twoTaskBoard idA idB eA eB)).1
        = .ok ()
      ∧ ((lookupA (updateTaskStatus (fuel + 3) idA .complete "done"
            (twoTaskBoard idA idB eA eB)).2.tasks idA).map TaskEntry.status)
        = some .complete
      ∧ ((lookupA (updateTaskStatus (fuel + 3) idA .complete "done"
            (twoTaskBoard idA idB eA eB)).2.tasks idB).map TaskEntry.status)
        = some .inProgress
      ∧ (((lookupA (updateTaskStatus (fuel + 3) idA .complete "done"
            (twoTaskBoard idA idB eA eB)).2.tasks idB).map TaskEntry.output).bind
          (fun o => pyGet o idA))
        = some eA.output := by
  have hne' : idB ≠ idA := Ne.symm hne
  rcases hout with h | ⟨m, h⟩
  · simp [updateTaskStatus, propagateComplete, checkDependencies, getBlockedTasks,
      blockedOf, getTask, modifyTask, pushEvent, throwE, liftE, pySetItem, depsComplete,
      run_bind, run_pure, twoTaskBoard, lookupA, setA, validTransitions, PyVal.truthy,
      pyGet, lookupA_setA_self, hne, hne', hA, hB, h, Bind.bind, Pure.pure]
  · cases m with
    | nil =>
      simp [updateTaskStatus, propagateComplete, checkDependencies, getBlockedTasks,
        blockedOf, getTask, modifyTask, pushEvent, throwE, liftE, pySetItem, depsComplete,
        run_bind, run_pure, twoTaskBoard, lookupA, setA, validTransitions, PyVal.truthy,
        pyGet, lookupA_setA_self, hne, hne', hA, hB, h, Bind.bind, Pure.pure]
    | cons q m' =>
      simp [updateTaskStatus, propagateComplete, checkDependencies, getBlockedTasks,
        blockedOf, getTask, modifyTask, pushEvent, throwE, liftE, pySetItem, depsComplete,
        run_bind, run_pure, twoTaskBoard, lookupA, setA, validTransitions, PyVal.truthy,
        pyGet, hne, hne', hA, hB, h, Bind.bind, Pure.pure]
      by_cases h1 : q.1 = idA
      · simp [h1, lookupA]
      · simp [h1, lookupA, lookupA_setA_self]

end TaskBoard

namespace TaskBoard

/-- Witness for C5: ids A/B with concrete entries. -/
theorem completionPropagationWitness :
    (updateTaskStatus 3 "A" .complete "done"
        (twoTaskBoard "A" "B" propagateEntryA propagateEntryB)).1 = .ok ()
      ∧ ((lookupA (updateTaskStatus 3 "A" .complete "done"
            (twoTaskBoard "A" "B" propagateEntryA propagateEntryB)).2.tasks "B").map
          TaskEntry.status) = some .inProgress
      ∧ (((lookupA (updateTaskStatus 3 "A" .complete "done"
            (twoTaskBoard "A" "B" propagateEntryA propagateEntryB)).2.tasks "B").map
          TaskEntry.output).bind (fun o => pyGet o "A")) = some propagateEntryA.output := by
  have h := completionPropagation 0 "A" "B" propagateEntryA propagateEntryB
    (by decide) rfl rfl (Or.inl rfl)
  exact ⟨h.1, h.2.2.1, h.2.2.2⟩

/-- C4 (amended): for any PENDING_REVIEW task with empty feedback on a
threshold-3 board, feeding approve, approve, reject through
`handle_feedback` completes the task on the first approval; the second
call raises COMPLETE → COMPLETE; the third call emits TASK_ESCALATED (the
conflict threshold is met) but raises on COMPLETE → STALLED; the task
ends COMPLETE — never STALLED — with all three feedback items recorded. -/
theorem feedbackThresholdRun (fuel : Nat) (idT : String) (eT : TaskEntry)
    (hst : eT.status = .pendingReview)
    (hfb : eT.verificationFeedback = []) :
    (let r1 := handleFeedback (fuel + 2) idT fbApprove "alpha" (oneTaskBoard idT eT)
     let r2 := handleFeedback (fuel + 2) idT fbApprove "beta" r1.2
     let r3 := handleFeedback (fuel + 2) idT fbReject "gamma" r2.2
     r1.1 = .ok ()
       ∧ r2.1 = .error (.invalidTransition .complete .complete)
       ∧ r3.1 = .error (.invalidTransition .complete .stalled)
       ∧ ((lookupA r3.2.tasks idT).map
           (fun t => (t.status, t.verificationFeedback.length))) = some (.complete, 3)
       ∧ r3.2.events = [.statusChanged idT .pendingReview .complete "Task approved",
           .taskEscalated idT "Conflicting feedback"]) := by
  simp [handleFeedback, escalateTask, updateTaskStatus, propagateComplete,
    checkDependencies, getBlockedTasks, blockedOf, getTask, modifyTask, pushEvent,
    throwE, liftE, getB, setB, countVerdict, depsComplete, run_bind, run_pure,
    oneTaskBoard, lookupA, setA, validTransitions, fbApprove, fbReject,
    hst, hfb, Bind.bind, Pure.pure]

/-- Witness for C4's amended claim at a concrete task. -/
theorem feedbackThresholdRunWitness :
    (let r1 := handleFeedback 9 "T" fbApprove "alpha"
        (oneTaskBoard "T" (entryBasic "T" [] .pendingReview))
     let r2 := handleFeedback 9 "T" fbApprove "beta" r1.2
     let r3 := handleFeedback 9 "T" fbReject "gamma" r2.2
     r1.1 = .ok ()
       ∧ r2.1 = .error (.invalidTransition .complete .complete)
       ∧ r3.1 = .error (.invalidTransition .complete .stalled)
       ∧ ((lookupA r3.2.tasks "T").map
           (fun t => (t.status, t.verificationFeedback.length))) = some (.complete, 3)
       ∧ r3.2.events = [.statusChanged "T" .pendingReview .complete "Task approved",
           .taskEscalated "T" "Conflicting feedback"]) :=
  feedbackThresholdRun 7 "T" (entryBasic "T" [] .pendingReview) rfl rfl

/-- `update_dependencies` never returns successfully and never mutates:
whichever validation path is taken (unknown id, missing dependency, or
the unconditional un-awaited cycle check) it raises with the board
exactly as before. -/
theorem updateDependencies_neverSucceeds (fuel : Nat) (taskId : String)
    (nd : List String) (b : Board) :
    ∃ e, updateDependencies fuel taskId nd b = (.error e, b) := by
  cases hl : lookupA b.tasks taskId with
  | none =>
    exact ⟨.keyError taskId,
      by simp [updateDependencies, getB, throwE, run_bind, hl, Bind.bind]⟩
  | some t =>
    cases hck : checkDepsExist b (dedup nd) with
    | error e =>
      exact ⟨e, by simp [updateDependencies, getB, throwE, liftE, run_bind, hl, hck,
        Bind.bind]⟩
    | ok u =>
      cases u
      exact ⟨.circularDependency "New dependencies would create cycle",
        by simp [updateDependencies, getB, throwE, liftE, run_bind, hl, hck,
          unawaitedCoroutineTruthy, Bind.bind]⟩

/-- C6 (amended): early failures are clean, but atomicity fails later.
`handle_feedback` and `escalate_task` fail with the board completely
unchanged (no event emitted, no feedback appended) on an unknown task
id, and `update_dependencies` never mutates at all: after its own
existence checks it unconditionally raises `CircularDependencyError`
(its async cycle check is called without `await`), so every
`update_dependencies` call fails with the board exactly as before.  The
claim's general atomicity is nevertheless false: `handle_feedback`
appends the feedback item before status validation and `escalate_task`
emits TASK_ESCALATED before its status transition — see the
counterexample. -/
theorem earlyFailuresLeaveBoardUnchanged :
    (∀ (fuel : Nat) (b : Board) (taskId : String) (fb : FeedbackItem) (src : String),
        lookupA b.tasks taskId = none →
        handleFeedback fuel taskId fb src b = (.error (.keyError taskId), b))
      ∧ (∀ (fuel : Nat) (b : Board) (taskId reason : String),
          lookupA b.tasks taskId = none →
          escalateTask (fuel + 1) taskId reason b = (.error (.keyError taskId), b))
      ∧ (∀ (fuel : Nat) (b : Board) (taskId : String) (nd : List String),
          ∃ e, updateDependencies fuel taskId nd b = (.error e, b)) := by
  refine ⟨?_, ?_, ?_⟩
  · intro fuel b taskId fb src h
    simp [handleFeedback, getB, throwE, run_bind, h, Bind.bind]
  · intro fuel b taskId reason h
    simp [escalateTask, getTask, run_bind, h, Bind.bind]
  · intro fuel b taskId nd
    exact updateDependencies_neverSucceeds fuel taskId nd b

/-- Witness for C6's amended claim: an unknown id for the first two
operations, and a concrete `update_dependencies` call failing with the
board unchanged. -/
theorem earlyFailuresLeaveBoardUnchangedWitness :
    handleFeedback 5 "ghost" fbApprove "src" emptyBoard
        = (.error (.keyError "ghost"), emptyBoard)
      ∧ escalateTask 5 "ghost" "why" emptyBoard = (.error (.keyError "ghost"), emptyBoard)
      ∧ (∃ e, updateDependencies 5 "a" ["a"] selfLoopBoard = (.error e, selfLoopBoard)) := by
  refine ⟨?_, ?_, ?_⟩
  · exact earlyFailuresLeaveBoardUnchanged.1 5 emptyBoard "ghost" fbApprove "src" rfl
  · exact earlyFailuresLeaveBoardUnchanged.2.1 4 emptyBoard "ghost" "why" rfl
  · exact earlyFailuresLeaveBoardUnchanged.2.2 5 selfLoopBoard "a" ["a"]

end TaskBoard

namespace TaskBoard

/-! ### Key-list lemmas for the dict model -/

theorem keysA_setA_of_mem {α : Type} (l : List (String × α)) (k : String) (v w : α)
    (h : lookupA l k = some w) : keysA (setA l k v) = keysA l := by
  induction l with
  | nil => simp [lookupA] at h
  | cons p t ih =>
    by_cases hk : p.1 = k
    · cases p; simp_all [setA, keysA]
    · cases p
      simp only [lookupA, if_neg hk] at h
      simp_all [setA, keysA, lookupA]

theorem lookupA_none_iff {α : Type} (l : List (String × α)) (k : String) :
    lookupA l k = none ↔ k ∉ keysA l := by
  induction l with
  | nil => simp [lookupA, keysA]
  | cons p t ih =>
    cases p with
    | mk k' v' =>
      by_cases hk : k' = k
      · simp_all [lookupA, keysA]
      · simp_all [lookupA, keysA]
        tauto

theorem keysA_eraseA {α : Type} (l : List (String × α)) (k : String) :
    keysA (eraseA l k) = (keysA l).filter (fun x => x ≠ k) := by
  induction l with
  | nil => simp [eraseA, keysA]
  | cons p t ih =>
    by_cases hk : p.1 = k <;> simp_all [eraseA, keysA, List.filter]

theorem eraseA_of_not_mem {α : Type} (l : List (String × α)) (k : String)
    (h : k ∉ keysA l) : eraseA l k = l := by
  unfold eraseA
  rw [List.filter_eq_self]
  intro p hp
  simp only [ne_eq, decide_eq_true_eq]
  intro hc
  exact h (List.mem_map.mpr ⟨p, hp, hc⟩)

/-! ### `KeepsStore` composition -/

theorem ks_of_stateless {α : Type} (m : M α) (h : ∀ b, (m b).2 = b) : KeepsStore m := by
  intro b; rw [h]; exact ⟨rfl, rfl⟩

theorem ks_pure {α : Type} (a : α) : KeepsStore (pure a : M α) :=
  ks_of_stateless _ (fun _ => rfl)

theorem ks_throwE {α : Type} (e : BoardError) : KeepsStore (throwE e : M α) :=
  ks_of_stateless _ (fun _ => rfl)

theorem ks_getB : KeepsStore getB := ks_of_stateless _ (fun _ => rfl)

theorem ks_liftE {α : Type} (x : Except BoardError α) : KeepsStore (liftE x) :=
  ks_of_stateless _ (fun _ => rfl)

theorem ks_getTask (id : String) : KeepsStore (getTask id) := by
  apply ks_of_stateless; intro b; unfold getTask
  cases lookupA b.tasks id <;> rfl

theorem ks_checkDependencies (id : String) : KeepsStore (checkDependencies id) := by
  apply ks_of_stateless; intro b; unfold checkDependencies
  cases lookupA b.tasks id
  · rfl
  · cases lookupA b.dependencyGraph id <;> rfl

theorem ks_getBlockedTasks (id : String) : KeepsStore (getBlockedTasks id) := by
  apply ks_of_stateless; intro b; unfold getBlockedTasks
  cases lookupA b.tasks id <;> rfl

theorem ks_modifyTask (id : String) (f : TaskEntry → TaskEntry) :
    KeepsStore (modifyTask id f) := by
  intro b; unfold modifyTask
  cases h : lookupA b.tasks id with
  | none => exact ⟨rfl, rfl⟩
  | some t => exact ⟨keysA_setA_of_mem b.tasks id (f t) t h, rfl⟩

theorem ks_pushEvent (ev : BoardEvent) : KeepsStore (pushEvent ev) := by
  intro b; exact ⟨rfl, rfl⟩

theorem ks_setQueue (q : List (Int × String)) : KeepsStore (setQueue q) := by
  intro b; exact ⟨rfl, rfl⟩

theorem ks_bind {α β : Type} {x : M α} {f : α → M β}
    (hx : KeepsStore x) (hf : ∀ a, KeepsStore (f a)) : KeepsStore (x >>= f) := by
  intro b
  have h1 := hx b
  rw [run_bind]
  rcases hx2 : x b with ⟨res, b'⟩
  rw [hx2] at h1
  cases res with
  | ok a =>
    have h2 := hf a b'
    exact ⟨h2.1.trans h1.1, h2.2.trans h1.2⟩
  | error e => exact h1

theorem ks_ite {α : Type} (c : Prop) [Decidable c] {x y : M α}
    (hx : KeepsStore x) (hy : KeepsStore y) : KeepsStore (if c then x else y) := by
  by_cases h : c
  · simpa [h] using hx
  · simpa [h] using hy

end TaskBoard

namespace TaskBoard

/-- The transition cascade never adds or removes store keys, and never
touches the dependency graph, whether it succeeds or raises. -/
theorem ks_core (n : Nat) :
    (∀ tid st r, KeepsStore (updateTaskStatus n tid st r))
      ∧ (∀ tid deps, KeepsStore (propagateComplete n tid deps))
      ∧ (∀ tid, KeepsStore (handlePartialFailure n tid))
      ∧ (∀ tid r, KeepsStore (escalateTask n tid r)) := by
  induction n with
  | zero =>
    exact ⟨fun _ _ _ => ks_throwE _, fun _ _ => ks_throwE _,
      fun _ => ks_throwE _, fun _ _ => ks_throwE _⟩
  | succ n ih =>
    obtain ⟨ih1, ih2, ih3, ih4⟩ := ih
    refine ⟨fun tid st r => ?_, fun tid deps => ?_, fun tid => ?_, fun tid r => ?_⟩
    · simp only [updateTaskStatus]
      apply ks_bind (ks_getTask tid)
      intro task
      apply ks_ite
      · apply ks_bind (ks_modifyTask _ _)
        intro _
        apply ks_ite
        · apply ks_bind (ks_getBlockedTasks tid)
          intro blocked
          apply ks_bind (ih2 tid blocked)
          intro _
          exact ks_pushEvent _
        · apply ks_ite
          · apply ks_bind (ks_throwE _)
            intro _
            exact ks_pushEvent _
          · apply ks_ite
            · apply ks_bind (ih3 tid)
              intro _
              exact ks_pushEvent _
            · apply ks_ite
              · apply ks_bind (ks_modifyTask _ _)
                intro _
                apply ks_bind (ks_getTask tid)
                intro t
                apply ks_ite
                · apply ks_bind (ih4 tid _)
                  intro _
                  exact ks_pushEvent _
                · apply ks_bind (ks_pure ())
                  intro _
                  exact ks_pushEvent _
              · apply ks_bind (ks_pure ())
                intro _
                exact ks_pushEvent _
      · exact ks_throwE _
    · cases deps with
      | nil => exact ks_pure ()
      | cons d rest =>
        simp only [propagateComplete]
        apply ks_bind (ks_getTask d)
        intro depTask
        apply ks_ite
        · apply ks_bind (ks_modifyTask _ _)
          intro _
          apply ks_bind (ks_getTask tid)
          intro src
          apply ks_bind (ks_getTask d)
          intro dep2
          apply ks_bind (ks_liftE _)
          intro newOut
          apply ks_bind (ks_modifyTask _ _)
          intro _
          apply ks_bind (ks_checkDependencies d)
          intro ready
          apply ks_ite
          · apply ks_bind (ih1 d .inProgress _)
            intro _
            exact ih2 tid rest
          · apply ks_bind (ks_pure ())
            intro _
            exact ih2 tid rest
        · apply ks_bind (ks_pure ())
          intro _
          apply ks_bind (ks_getTask tid)
          intro src
          apply ks_bind (ks_getTask d)
          intro dep2
          apply ks_bind (ks_liftE _)
          intro newOut
          apply ks_bind (ks_modifyTask _ _)
          intro _
          apply ks_bind (ks_checkDependencies d)
          intro ready
          apply ks_ite
          · apply ks_bind (ih1 d .inProgress _)
            intro _
            exact ih2 tid rest
          · apply ks_bind (ks_pure ())
            intro _
            exact ih2 tid rest
    · simp only [handlePartialFailure]
      apply ks_bind (ks_getTask tid)
      intro task
      apply ks_bind ks_getB
      intro b
      apply ks_bind (ks_liftE _)
      intro failed
      apply ks_ite
      · exact ks_pure ()
      · apply ks_bind (ks_pushEvent _)
        intro _
        exact ih1 tid .stalled _
    · simp only [escalateTask]
      apply ks_bind (ks_getTask tid)
      intro task
      apply ks_bind (ks_pushEvent _)
      intro _
      exact ih1 tid .stalled _

end TaskBoard

namespace TaskBoard

/-! ### Run equations for the primitive operations -/

theorem run_getB (b : Board) : getB b = (.ok b, b) := rfl

theorem run_throwE {α : Type} (e : BoardError) (b : Board) :
    (throwE e : M α) b = (.error e, b) := rfl

theorem run_liftE {α : Type} (x : Except BoardError α) (b : Board) :
    liftE x b = (x, b) := rfl

theorem run_setGraphEntry (id : String) (deps : List String) (b : Board) :
    setGraphEntry id deps b
      = (.ok (), { b with dependencyGraph := setA b.dependencyGraph id deps }) := rfl

theorem run_dropGraphEntry (id : String) (b : Board) :
    dropGraphEntry id b
      = (.ok (), { b with dependencyGraph := eraseA b.dependencyGraph id }) := rfl

theorem run_insertTaskEntry (id : String) (e : TaskEntry) (b : Board) :
    insertTaskEntry id e b = (.ok (), { b with tasks := setA b.tasks id e }) := rfl

theorem run_dropTaskEntry (id : String) (b : Board) :
    dropTaskEntry id b = (.ok (), { b with tasks := eraseA b.tasks id }) := rfl

theorem run_setQueue (q : List (Int × String)) (b : Board) :
    setQueue q b = (.ok (), { b with priorityQueue := q }) := rfl

theorem run_discardFromGraphValues (id : String) (b : Board) :
    discardFromGraphValues id b
      = (.ok (), { b with dependencyGraph :=
          b.dependencyGraph.map (fun p => (p.1, p.2.filter (fun d => d ≠ id))) }) := rfl

theorem run_pushEvent (ev : BoardEvent) (b : Board) :
    pushEvent ev b = (.ok (), { b with events := b.events ++ [ev] }) := rfl

/-! ### `KeepsStore` for the wrapper operations -/

theorem ks_updateTaskStatus (n : Nat) (tid : String) (st : TaskStatus) (r : String) :
    KeepsStore (updateTaskStatus n tid st r) := (ks_core n).1 tid st r

theorem ks_handlePartialFailure (n : Nat) (tid : String) :
    KeepsStore (handlePartialFailure n tid) := (ks_core n).2.2.1 tid

theorem ks_escalateTask (n : Nat) (tid r : String) :
    KeepsStore (escalateTask n tid r) := (ks_core n).2.2.2 tid r

theorem ks_handleIterationLimitReached (fuel : Nat) (tid : String) :
    KeepsStore (handleIterationLimitReached fuel tid) := by
  unfold handleIterationLimitReached
  apply ks_bind (ks_getTask tid)
  intro task
  apply ks_ite
  · exact ks_updateTaskStatus fuel tid .stalled _
  · apply ks_ite
    · exact ks_updateTaskStatus fuel tid .stalled _
    · exact ks_pure ()

theorem ks_incrementIteration (fuel : Nat) (tid : String) :
    KeepsStore (incrementIteration fuel tid) := by
  unfold incrementIteration
  apply ks_bind ks_getB
  intro b
  apply ks_ite
  · exact ks_throwE _
  · apply ks_bind (ks_modifyTask _ _)
    intro _
    apply ks_bind (ks_getTask tid)
    intro t
    apply ks_ite
    · apply ks_bind (ks_handleIterationLimitReached fuel tid)
      intro _
      exact ks_pushEvent _
    · apply ks_bind (ks_pure ())
      intro _
      exact ks_pushEvent _

theorem ks_handleVerificationResult (fuel : Nat) (tid : String) (passed : Bool) :
    KeepsStore (handleVerificationResult fuel tid passed) := by
  unfold handleVerificationResult
  apply ks_bind ks_getB
  intro b
  apply ks_ite
  · exact ks_throwE _
  · apply ks_bind (ks_getTask tid)
    intro task
    apply ks_ite
    · exact ks_throwE _
    · apply ks_bind (ks_modifyTask _ _)
      intro _
      apply ks_ite
      · exact ks_updateTaskStatus fuel tid .complete _
      · apply ks_bind (ks_incrementIteration fuel tid)
        intro _
        apply ks_bind (ks_getTask tid)
        intro t
        apply ks_ite
        · exact ks_updateTaskStatus fuel tid .reworkNeeded _
        · exact ks_pure ()

theorem ks_handleFeedback (fuel : Nat) (tid : String) (fb : FeedbackItem) (src : String) :
    KeepsStore (handleFeedback fuel tid fb src) := by
  unfold handleFeedback
  apply ks_bind ks_getB
  intro b
  apply ks_ite
  · exact ks_throwE _
  · apply ks_bind (ks_modifyTask _ _)
    intro _
    apply ks_bind (ks_getTask tid)
    intro t
    apply ks_ite
    · exact ks_escalateTask fuel tid _
    · apply ks_ite
      · exact ks_updateTaskStatus fuel tid .complete _
      · apply ks_ite
        · exact ks_updateTaskStatus fuel tid .reworkNeeded _
        · exact ks_pure ()

theorem ks_hpfLoop (fuel : Nat) (l : List String) : KeepsStore (hpfLoop fuel l) := by
  induction l with
  | nil => exact ks_pure ()
  | cons x xs ih =>
    simp only [hpfLoop]
    apply ks_bind (ks_handlePartialFailure fuel x)
    intro _
    exact ih

theorem ks_getNextPriorityTask (n : Nat) : KeepsStore (getNextPriorityTask n) := by
  induction n with
  | zero => exact ks_throwE _
  | succ n ih =>
    simp only [getNextPriorityTask]
    apply ks_bind ks_getB
    intro b
    cases hq : b.priorityQueue with
    | nil => exact ks_pure _
    | cons head rest =>
      obtain ⟨p, tid⟩ := head
      apply ks_bind (ks_setQueue _)
      intro _
      cases hl : lookupA b.tasks tid with
      | none => exact ih
      | some task =>
        apply ks_ite
        · apply ks_bind (ks_checkDependencies tid)
          intro ready
          apply ks_ite
          · apply ks_bind (ks_updateTaskStatus n tid .inProgress _)
            intro _
            exact ks_pure _
          · apply ks_bind ks_getB
            intro b1
            apply ks_bind (ks_setQueue _)
            intro _
            exact ih
        · apply ks_ite
          · exact ks_pure _
          · apply ks_bind ks_getB
            intro b1
            apply ks_bind (ks_setQueue _)
            intro _
            exact ih

theorem ks_updatePriority (tid : String) (p : Int) : KeepsStore (updatePriority tid p) := by
  unfold updatePriority
  apply ks_bind ks_getB
  intro b
  apply ks_ite
  · exact ks_throwE _
  · apply ks_ite
    · exact ks_throwE _
    · apply ks_bind (ks_getTask tid)
      intro t
      apply ks_bind (ks_modifyTask _ _)
      intro _
      apply ks_bind ks_getB
      intro b1
      apply ks_bind (ks_setQueue _)
      intro _
      exact ks_pushEvent _

/-! ### `Consistent` preservation -/

theorem consistent_of_same {b b' : Board}
    (ht : tasksKeys b' = tasksKeys b) (hg : b'.dependencyGraph = b.dependencyGraph)
    (h : Consistent b) : Consistent b' := by
  unfold Consistent graphKeys at h ⊢
  rw [ht, hg]
  exact h

theorem kc_of_ks {α : Type} {m : M α} (h : KeepsStore m) : KeepsConsistent m := by
  intro b hc
  exact consistent_of_same (h b).1 (h b).2 hc

end TaskBoard

namespace TaskBoard

theorem keysA_map_values {α β : Type} (l : List (String × α)) (f : String × α → β) :
    keysA (l.map (fun p => (p.1, f p))) = keysA l := by
  induction l <;> simp_all [keysA]

/-- Dropping a task from the store and the graph and discarding its id
from every remaining graph dependency set preserves consistency (the
final state of `remove_task`). -/
theorem consistent_removeFinal (b : Board) (hc : Consistent b) (tid : String)
    (q : List (Int × String)) (th : Nat) (evs : List BoardEvent) :
    Consistent ⟨eraseA b.tasks tid,
      (eraseA b.dependencyGraph tid).map (fun p => (p.1, p.2.filter (fun d => d ≠ tid))),
      q, th, evs⟩ := by
  obtain ⟨h1, h2, h3, h4, h5⟩ := hc
  have ht : keysA (eraseA b.tasks tid) = (tasksKeys b).filter (fun x => x ≠ tid) :=
    keysA_eraseA _ _
  have hg : keysA ((eraseA b.dependencyGraph tid).map
        (fun p => (p.1, p.2.filter (fun d => d ≠ tid))))
      = (graphKeys b).filter (fun x => x ≠ tid) := by
    rw [keysA_map_values (eraseA b.dependencyGraph tid) (fun p => p.2.filter (fun d => d ≠ tid))]
    exact keysA_eraseA _ _
  refine ⟨?_, ?_, ?_, ?_, ?_⟩
  · intro k hk
    simp only [tasksKeys, graphKeys] at hk ⊢
    rw [ht] at hk
    rw [hg]
    rcases List.mem_filter.mp hk with ⟨hk1, hk2⟩
    exact List.mem_filter.mpr ⟨h1 k hk1, hk2⟩
  · intro k hk
    simp only [tasksKeys, graphKeys] at hk ⊢
    rw [hg] at hk
    rw [ht]
    rcases List.mem_filter.mp hk with ⟨hk1, hk2⟩
    exact List.mem_filter.mpr ⟨h2 k hk1, hk2⟩
  · intro p hp d hd
    simp only [tasksKeys] at hd ⊢
    rcases List.mem_map.mp hp with ⟨p0, hp0, heq⟩
    subst heq
    rcases List.mem_filter.mp hd with ⟨hd1, hd2⟩
    have hp0' : p0 ∈ b.dependencyGraph := List.mem_of_mem_filter hp0
    show d ∈ keysA (eraseA b.tasks tid)
    rw [ht]
    exact List.mem_filter.mpr ⟨h3 p0 hp0' d hd1, hd2⟩
  · show (keysA (eraseA b.tasks tid)).Nodup
    rw [ht]; exact h4.filter _
  · simp only [graphKeys]
    rw [hg]
    exact h5.filter _

end TaskBoard

namespace TaskBoard

/-- `update_dependencies` preserves board consistency: it always fails
with the board unchanged. -/
theorem kc_updateDependencies (fuel : Nat) (tid : String) (nd : List String) :
    KeepsConsistent (updateDependencies fuel tid nd) := by
  intro b hc
  rcases updateDependencies_neverSucceeds fuel tid nd b with ⟨e, he⟩
  rw [he]
  exact hc

end TaskBoard

namespace TaskBoard

theorem setA_of_not_mem {α : Type} (l : List (String × α)) (k : String) (v : α)
    (h : lookupA l k = none) : setA l k v = l ++ [(k, v)] := by
  induction l with
  | nil => simp [setA]
  | cons p t ih =>
    by_cases hk : p.1 = k
    · cases p; simp_all [lookupA]
    · cases p
      simp only [lookupA, if_neg hk] at h
      simp_all [setA]

/-- `add_task` preserves board consistency on every path: the two
validation failures leave the board unchanged, and the unconditional
cycle path rolls the freshly written graph entry back before raising. -/
theorem kc_addTask (fuel : Nat) (task : TaskEntry) : KeepsConsistent (addTask fuel task) := by
  intro b hc
  cases hl : lookupA b.tasks task.id with
  | some t =>
    have hrun : addTask fuel task b
        = (.error (.valueError ("Task already exists: " ++ task.id)), b) := by
      simp [addTask, run_bind, run_getB, run_throwE, hl, Bind.bind]
    rw [hrun]
    exact hc
  | none =>
    cases hck : checkDepsExist b task.dependencies with
    | error e =>
      have hrun : addTask fuel task b = (.error e, b) := by
        simp [addTask, run_bind, run_getB, run_throwE, run_liftE, hl, hck, Bind.bind]
      rw [hrun]
      exact hc
    | ok u =>
      cases u
      have hid : task.id ∉ tasksKeys b := (lookupA_none_iff _ _).mp hl
      have hid2 : task.id ∉ graphKeys b := fun h => hid (hc.2.1 task.id h)
      have hgl : lookupA b.dependencyGraph task.id = none := (lookupA_none_iff _ _).mpr hid2
      have hrb : eraseA (setA b.dependencyGraph task.id (dedup task.dependencies)) task.id
          = b.dependencyGraph := by
        rw [setA_of_not_mem _ _ _ hgl]
        have h1 : eraseA (b.dependencyGraph ++ [(task.id, dedup task.dependencies)]) task.id
            = eraseA b.dependencyGraph task.id
              ++ eraseA [(task.id, dedup task.dependencies)] task.id := by
          unfold eraseA
          exact List.filter_append _ _
        rw [h1, eraseA_of_not_mem _ _ hid2]
        simp [eraseA]
      have hrun : addTask fuel task b
          = (.error (.circularDependency "Adding task creates circular dependency"),
             { b with dependencyGraph :=
                 eraseA (setA b.dependencyGraph task.id (dedup task.dependencies)) task.id }) := by
        simp [addTask, run_bind, run_getB, run_throwE, run_liftE, run_setGraphEntry,
          run_dropGraphEntry, unawaitedCoroutineTruthy, hl, hck, Bind.bind]
      rw [hrun]
      refine consistent_of_same ?_ ?_ hc
      · rfl
      · exact hrb

/-- `remove_task` preserves board consistency on every path. -/
theorem kc_removeTask (fuel : Nat) (tid : String) : KeepsConsistent (removeTask fuel tid) := by
  intro b hc
  cases hl : lookupA b.tasks tid with
  | none =>
    have hrun : removeTask fuel tid b = (.error (.keyError tid), b) := by
      simp [removeTask, run_bind, run_getB, run_throwE, hl, Bind.bind]
    rw [hrun]
    exact hc
  | some t =>
    rcases hres : hpfLoop fuel (blockedOf b.dependencyGraph tid) b with ⟨res, bb⟩
    have hkeep := ks_hpfLoop fuel (blockedOf b.dependencyGraph tid) b
    rw [hres] at hkeep
    have hcb : Consistent bb := consistent_of_same hkeep.1 hkeep.2 hc
    cases res with
    | error e =>
      have hrun : removeTask fuel tid b = (.error e, bb) := by
        simp [removeTask, run_bind, run_getB, run_throwE, getBlockedTasks, hl, hres,
          Bind.bind]
      rw [hrun]
      exact hcb
    | ok u =>
      cases u
      simp only [removeTask, run_bind, run_getB, run_throwE, run_dropTaskEntry,
        run_dropGraphEntry, run_setQueue, run_discardFromGraphValues, run_pushEvent,
        getBlockedTasks, hl, hres, Bind.bind, Option.isNone_some, Bool.false_eq_true,
        if_false]
      exact consistent_removeFinal bb hcb tid _ _ _

end TaskBoard

namespace TaskBoard

/-- C10 (amended): graph-level board consistency is an invariant.  If the
key set of the task store equals the key set of the dependency graph
(both duplicate-free, as Python dicts guarantee) and every id in any
graph dependency set is a stored task, then after every public operation
— succeeding or raising — the same holds.  (The entry-level
`dependencies` lists are excluded: the counterexample shows `remove_task`
leaves removed ids in them.) -/
theorem operationsKeepConsistency :
    (∀ fuel task, KeepsConsistent (addTask fuel task))
      ∧ (∀ fuel tid, KeepsConsistent (removeTask fuel tid))
      ∧ (∀ fuel tid nd, KeepsConsistent (updateDependencies fuel tid nd))
      ∧ (∀ fuel tid st r, KeepsConsistent (updateTaskStatus fuel tid st r))
      ∧ (∀ fuel tid fb src, KeepsConsistent (handleFeedback fuel tid fb src))
      ∧ (∀ fuel tid p, KeepsConsistent (handleVerificationResult fuel tid p))
      ∧ (∀ fuel tid, KeepsConsistent (incrementIteration fuel tid))
      ∧ (∀ fuel tid r, KeepsConsistent (escalateTask fuel tid r))
      ∧ (∀ fuel tid, KeepsConsistent (handlePartialFailure fuel tid))
      ∧ (∀ n, KeepsConsistent (getNextPriorityTask n))
      ∧ (∀ tid p, KeepsConsistent (updatePriority tid p)) :=
  ⟨kc_addTask, kc_removeTask, kc_updateDependencies,
   fun fuel tid st r => kc_of_ks (ks_updateTaskStatus fuel tid st r),
   fun fuel tid fb src => kc_of_ks (ks_handleFeedback fuel tid fb src),
   fun fuel tid p => kc_of_ks (ks_handleVerificationResult fuel tid p),
   fun fuel tid => kc_of_ks (ks_incrementIteration fuel tid),
   fun fuel tid r => kc_of_ks (ks_escalateTask fuel tid r),
   fun fuel tid => kc_of_ks (ks_handlePartialFailure fuel tid),
   fun n => kc_of_ks (ks_getNextPriorityTask n),
   fun tid p => kc_of_ks (ks_updatePriority tid p)⟩

/-- Witness for C10's amended claim: a consistent one-task board stays
consistent through an add, a remove, and a dependency update. -/
theorem operationsKeepConsistencyWitness :
    Consistent addBaseBoard
      ∧ Consistent ((addTask 5 (entryBasic "c" [] .waiting) addBaseBoard).2)
      ∧ Consistent ((removeTask 5 "a" addBaseBoard).2)
      ∧ Consistent ((updateDependencies 5 "a" [] addBaseBoard).2) := by
  have h0 : Consistent addBaseBoard := by
    unfold Consistent
    refine ⟨?_, ?_, ?_, ?_, ?_⟩ <;> decide
  exact ⟨h0, operationsKeepConsistency.1 5 _ addBaseBoard h0,
    operationsKeepConsistency.2.1 5 "a" addBaseBoard h0,
    operationsKeepConsistency.2.2.1 5 "a" [] addBaseBoard h0⟩

end TaskBoard
